import Mathlib

/-!
Verification development for the network-intrusion-detection repository.

This file shallowly embeds the risk-aggregation core of
`ML_MODELS/enhanced_prediction_api.py` (class `EnhancedPredictionAPI`) and the
display heuristic `detect_attack_types` of `ML_MODELS/clean_dashboard.py`, and
proves properties of the embedded code.

Modelling conventions:
* Python numbers are modelled as exact rationals (`ℚ`); decimal literals such
  as `0.4` denote the exact rational `2/5`.
* A Python dict is an association list (first binding wins).
* The fitted scikit-learn artifacts (`*.pkl`) are not part of the source tree;
  each detector therefore carries its scoring pipeline as an abstract function
  `List ℚ → Except String _`, where `.error` models a raised exception and
  `.ok` a normal return.  The surrounding control flow (feature extraction,
  thresholds, fallbacks, `try/except`) is translated from the source.
* `pd.Timestamp.now()` (the `timestamp` result field) is wall-clock time and
  is not modelled; every other field of the results dict is.
-/

set_option maxHeartbeats 1000000

/-- A Python value stored in a verdict dictionary: a boolean, a number
(exact rational) or a string. -/
inductive PyVal : Type
  | bool : Bool → PyVal
  | num : ℚ → PyVal
  | str : String → PyVal
deriving DecidableEq

/-- Python truthiness, as used by `if d.get(key, False):`. -/
def PyVal.truthy : PyVal → Bool
  | .bool b => b
  | .num q => q != 0
  | .str s => s != ""

/-- Whether a value is a string (used to state that fallback verdicts carry
no diagnostic string). -/
def PyVal.isStr : PyVal → Bool
  | .str _ => true
  | _ => false

/-- Association-list lookup, first binding wins: the embedding of Python
dictionary lookup. -/
def assocFind {α : Type} : List (String × α) → String → Option α
  | [], _ => none
  | (k, v) :: rest, key => if k = key then some v else assocFind rest key

/-- A verdict dictionary as returned by the `_detect_*` / `_analyze_*`
methods. -/
abbrev PyDict := List (String × PyVal)

/-- `d.get(k, dflt)` on a verdict dictionary. -/
def pyGet (d : PyDict) (k : String) (dflt : PyVal) : PyVal :=
  match assocFind d k with
  | some v => v
  | none => dflt

/-- Truthiness of `d.get(k, False)`. -/
def pyFlag (d : PyDict) (k : String) : Bool :=
  (pyGet d k (.bool false)).truthy

/-- A FeatureRow: mapping from feature name to numeric value. -/
abbrev FeatureRow := List (String × ℚ)

/-- `data.get(f, 0)`: every detector reads features with default `0`. -/
def rowGet (r : FeatureRow) (f : String) : ℚ :=
  match assocFind r f with
  | some v => v
  | none => 0

/-! ### Detector states

Each structure packages what one `_detect_*` method reads from
`self.feature_groups`, `self.models`, `self.scalers` and `self.thresholds`:
the resolved feature list, the fitted pipeline (optional scaler followed by
the model call; `.error` models any exception raised inside the `try` block),
and the resolved numeric threshold where the method uses one. -/

/-- State of an anomaly-score detector (`_detect_dos`,
`_detect_reconnaissance`): `scoreFn` is `decision_function` after the
optional scaler; `threshold` is `self.thresholds.get(name, -0.1)`. -/
structure ScoreDetector where
  features : List String
  scoreFn : List ℚ → Except String ℚ
  threshold : ℚ

/-- State of a label-only detector (`_detect_fuzzer`, `_analyze_timing`):
`predictFn` is `model.predict` after the optional scaler, returning the
class label (−1 marks an outlier). -/
structure LabelDetector where
  features : List String
  predictFn : List ℚ → Except String Int

/-- State of a supervised detector (`_detect_brute_force`,
`_analyze_session`): `predictFn` returns the predicted label together with
`predict_proba[0][1]` (or `float(pred)` when `predict_proba` is missing). -/
structure ProbaDetector where
  features : List String
  predictFn : List ℚ → Except String (Int × ℚ)

/-- State of the DBSCAN port-scan detector (`_detect_port_scan`): `scaleFn`
is the optional scaler step, `min_samples` the DBSCAN hyperparameter
(`advanced_attack_detectors.py` trains `DBSCAN(eps=0.5, min_samples=5)`). -/
structure PortScanDetector where
  features : List String
  scaleFn : List ℚ → Except String (List ℚ)
  min_samples : ℕ

/-- State of `_analyze_tcp_behavior`: score pipeline only (the cutoff `-0.1`
is a literal in the method). -/
structure TcpDetector where
  features : List String
  scoreFn : List ℚ → Except String ℚ

/-- Resolved `self.thresholds.get('high_bandwidth', {})` values with their
per-key defaults (`1.0` each). -/
structure BandwidthThresholds where
  sload : ℚ
  dload : ℚ
  rate : ℚ

/-- Resolved `self.thresholds.get('abnormal_packet', {})` bands with their
defaults (`{'min': -2, 'max': 2}` for both features). -/
structure PacketThresholds where
  smeanMin : ℚ
  smeanMax : ℚ
  dmeanMin : ℚ
  dmeanMax : ℚ

/-! ### The ten detector methods -/

/-- Fallback returned by `_detect_dos` when the model is absent or the body
raises. -/
def dosFallback : PyDict :=
  [("is_dos", .bool false), ("anomaly_score", .num 0), ("confidence", .num 0)]

/-- Embedding of `EnhancedPredictionAPI._detect_dos`: read the feature group
with default 0 per feature, score the vector, compare with the stored
threshold; confidence is `abs(score - threshold) / abs(threshold)` when the
threshold is nonzero.  `none` models `'dos_detector' not in self.models`. -/
def detect_dos (det : Option ScoreDetector) (data : FeatureRow) : PyDict :=
  match det with
  | none => dosFallback
  | some d =>
    let dos_data := d.features.map (fun f => rowGet data f)
    if dos_data.length = d.features.length then
      match d.scoreFn dos_data with
      | .ok score =>
          [("is_dos", .bool (decide (score < d.threshold))),
           ("anomaly_score", .num score),
           ("threshold", .num d.threshold),
           ("confidence",
            .num (if d.threshold ≠ 0 then |score - d.threshold| / |d.threshold| else 0))]
      | .error _ => dosFallback
    else dosFallback

/-- Fallback returned by `_detect_fuzzer`. -/
def fuzzerFallback : PyDict :=
  [("is_fuzzer", .bool false), ("prediction", .num 1), ("confidence", .num 0)]

/-- Embedding of `EnhancedPredictionAPI._detect_fuzzer` (OneClassSVM
labels: −1 = outlier ⇒ fuzzer; confidence is the literal 0.8 / 0.2). -/
def detect_fuzzer (det : Option LabelDetector) (data : FeatureRow) : PyDict :=
  match det with
  | none => fuzzerFallback
  | some d =>
    let fuzzer_data := d.features.map (fun f => rowGet data f)
    if fuzzer_data.length = d.features.length then
      match d.predictFn fuzzer_data with
      | .ok pred =>
          [("is_fuzzer", .bool (pred == -1)),
           ("prediction", .num (pred : ℚ)),
           ("confidence", .num (if pred == -1 then 0.8 else 0.2))]
      | .error _ => fuzzerFallback
    else fuzzerFallback

/-- Fallback returned by `_detect_port_scan`. -/
def portScanFallback : PyDict :=
  [("is_port_scan", .bool false), ("cluster", .num 0), ("confidence", .num 0)]

/-- `DBSCAN.fit_predict` on a dataset holding exactly one sample, which is
what `_detect_port_scan` submits.  The sample is a core point iff the number
of samples within `eps` of it (itself included, i.e. exactly 1) is at least
`min_samples`; a core point founds cluster 0, otherwise the point is noise
and labelled −1.  The label does not depend on the sample's coordinates. -/
def dbscan_fit_predict_single (min_samples : ℕ) : Int :=
  if min_samples ≤ 1 then 0 else -1

/-- Embedding of `EnhancedPredictionAPI._detect_port_scan`: the DBSCAN model
is refit on the single submitted row by `fit_predict`; −1 (noise) is read as
a port scan with confidence 0.9, any cluster label as benign with 0.1. -/
def detect_port_scan (det : Option PortScanDetector) (data : FeatureRow) : PyDict :=
  match det with
  | none => portScanFallback
  | some d =>
    let portscan_data := d.features.map (fun f => rowGet data f)
    if portscan_data.length = d.features.length then
      match d.scaleFn portscan_data with
      | .ok _scaled =>
          let pred := dbscan_fit_predict_single d.min_samples
          [("is_port_scan", .bool (pred == -1)),
           ("cluster", .num (pred : ℚ)),
           ("confidence", .num (if pred == -1 then 0.9 else 0.1))]
      | .error _ => portScanFallback
    else portScanFallback

/-- Fallback returned by `_detect_brute_force`. -/
def bruteForceFallback : PyDict :=
  [("is_brute_force", .bool false), ("prediction", .num 0), ("confidence", .num 0)]

/-- Embedding of `EnhancedPredictionAPI._detect_brute_force` (supervised:
`bool(pred)` is the flag, `predict_proba[0][1]` the confidence). -/
def detect_brute_force (det : Option ProbaDetector) (data : FeatureRow) : PyDict :=
  match det with
  | none => bruteForceFallback
  | some d =>
    let brute_data := d.features.map (fun f => rowGet data f)
    if brute_data.length = d.features.length then
      match d.predictFn brute_data with
      | .ok (pred, prob) =>
          [("is_brute_force", .bool (pred != 0)),
           ("prediction", .num (pred : ℚ)),
           ("confidence", .num prob)]
      | .error _ => bruteForceFallback
    else bruteForceFallback

/-- Fallback returned by `_detect_reconnaissance`. -/
def reconFallback : PyDict :=
  [("is_reconnaissance", .bool false), ("anomaly_score", .num 0), ("confidence", .num 0)]

/-- Embedding of `EnhancedPredictionAPI._detect_reconnaissance` (same shape
as `_detect_dos`, threshold default `thresholds.get('reconnaissance', -0.1)`). -/
def detect_reconnaissance (det : Option ScoreDetector) (data : FeatureRow) : PyDict :=
  match det with
  | none => reconFallback
  | some d =>
    let recon_data := d.features.map (fun f => rowGet data f)
    if recon_data.length = d.features.length then
      match d.scoreFn recon_data with
      | .ok score =>
          [("is_reconnaissance", .bool (decide (score < d.threshold))),
           ("anomaly_score", .num score),
           ("threshold", .num d.threshold),
           ("confidence",
            .num (if d.threshold ≠ 0 then |score - d.threshold| / |d.threshold| else 0))]
      | .error _ => reconFallback
    else reconFallback

/-- Embedding of `EnhancedPredictionAPI._analyze_bandwidth`: static
comparisons of `sload`, `dload`, `rate` against the resolved thresholds.
Under numeric rows its body cannot raise, so no fallback path remains. -/
def analyze_bandwidth (t : BandwidthThresholds) (data : FeatureRow) : PyDict :=
  let sload := rowGet data "sload"
  let dload := rowGet data "dload"
  let rate := rowGet data "rate"
  let high_sload := decide (sload > t.sload)
  let high_dload := decide (dload > t.dload)
  let high_rate := decide (rate > t.rate)
  [("high_bandwidth", .bool (high_sload || high_dload || high_rate)),
   ("sload_high", .bool high_sload),
   ("dload_high", .bool high_dload),
   ("rate_high", .bool high_rate),
   ("sload_value", .num sload),
   ("dload_value", .num dload),
   ("rate_value", .num rate)]

/-- Fallback returned by `_analyze_tcp_behavior`. -/
def tcpFallback : PyDict :=
  [("suspicious_tcp", .bool false), ("anomaly_score", .num 0), ("confidence", .num 0)]

/-- Embedding of `EnhancedPredictionAPI._analyze_tcp_behavior` (anomaly score
against the literal cutoff −0.1; confidence `abs(score)` when negative). -/
def analyze_tcp_behavior (det : Option TcpDetector) (data : FeatureRow) : PyDict :=
  match det with
  | none => tcpFallback
  | some d =>
    let tcp_data := d.features.map (fun f => rowGet data f)
    if tcp_data.length = d.features.length then
      match d.scoreFn tcp_data with
      | .ok score =>
          [("suspicious_tcp", .bool (decide (score < -0.1))),
           ("anomaly_score", .num score),
           ("confidence", .num (if score < 0 then |score| else 0))]
      | .error _ => tcpFallback
    else tcpFallback

/-- Embedding of `EnhancedPredictionAPI._analyze_packet_sizes`: band check of
`smean` and `dmean` against the resolved min/max thresholds. -/
def analyze_packet_sizes (t : PacketThresholds) (data : FeatureRow) : PyDict :=
  let smean := rowGet data "smean"
  let dmean := rowGet data "dmean"
  let abnormal_smean := decide (smean < t.smeanMin) || decide (smean > t.smeanMax)
  let abnormal_dmean := decide (dmean < t.dmeanMin) || decide (dmean > t.dmeanMax)
  [("abnormal_packet_size", .bool (abnormal_smean || abnormal_dmean)),
   ("smean_abnormal", .bool abnormal_smean),
   ("dmean_abnormal", .bool abnormal_dmean),
   ("smean_value", .num smean),
   ("dmean_value", .num dmean)]

/-- Fallback returned by `_analyze_timing`. -/
def timingFallback : PyDict :=
  [("timing_anomaly", .bool false), ("prediction", .num 1), ("confidence", .num 0)]

/-- Embedding of `EnhancedPredictionAPI._analyze_timing` (same shape as
`_detect_fuzzer`). -/
def analyze_timing (det : Option LabelDetector) (data : FeatureRow) : PyDict :=
  match det with
  | none => timingFallback
  | some d =>
    let timing_data := d.features.map (fun f => rowGet data f)
    if timing_data.length = d.features.length then
      match d.predictFn timing_data with
      | .ok pred =>
          [("timing_anomaly", .bool (pred == -1)),
           ("prediction", .num (pred : ℚ)),
           ("confidence", .num (if pred == -1 then 0.8 else 0.2))]
      | .error _ => timingFallback
    else timingFallback

/-- Fallback returned by `_analyze_session`. -/
def sessionFallback : PyDict :=
  [("session_anomaly", .bool false), ("prediction", .num 0), ("confidence", .num 0)]

/-- Embedding of `EnhancedPredictionAPI._analyze_session` (same shape as
`_detect_brute_force`). -/
def analyze_session (det : Option ProbaDetector) (data : FeatureRow) : PyDict :=
  match det with
  | none => sessionFallback
  | some d =>
    let session_data := d.features.map (fun f => rowGet data f)
    if session_data.length = d.features.length then
      match d.predictFn session_data with
      | .ok (pred, prob) =>
          [("session_anomaly", .bool (pred != 0)),
           ("prediction", .num (pred : ℚ)),
           ("confidence", .num prob)]
      | .error _ => sessionFallback
    else sessionFallback

/-! ### Risk aggregation -/

/-- The fixed `(analysis_type, key, weight)` table of
`EnhancedPredictionAPI._calculate_risk_score`. -/
def riskWeights : List (String × String × ℚ) :=
  [("dos_detection", "is_dos", 0.2),
   ("fuzzer_detection", "is_fuzzer", 0.15),
   ("port_scan_detection", "is_port_scan", 0.15),
   ("brute_force_detection", "is_brute_force", 0.1),
   ("reconnaissance_detection", "is_reconnaissance", 0.1),
   ("bandwidth_analysis", "high_bandwidth", 0.05),
   ("tcp_behavior_analysis", "suspicious_tcp", 0.05),
   ("packet_size_analysis", "abnormal_packet_size", 0.05),
   ("timing_analysis", "timing_anomaly", 0.05),
   ("session_analysis", "session_anomaly", 0.05)]

/-- `analysis_type in detailed_analysis and detailed_analysis[t].get(k, False)`. -/
def daFlag (da : List (String × PyDict)) (t k : String) : Bool :=
  match assocFind da t with
  | some d => pyFlag d k
  | none => false

/-- Embedding of `EnhancedPredictionAPI._calculate_risk_score`:
`risk = attack_probability * 0.4`, plus each listed weight whose analysis is
present and flagged, capped by `min(risk, 1.0)`. -/
def calculate_risk_score (da : List (String × PyDict)) (attack_probability : ℚ) : ℚ :=
  min (riskWeights.foldl
        (fun acc w => if daFlag da w.1 w.2.1 then acc + w.2.2 else acc)
        (attack_probability * 0.4)) 1

/-- Embedding of `EnhancedPredictionAPI._generate_recommendations`: a static
table from triggered risk-factor names to fixed strings; when nothing was
appended, the two closing default messages are appended instead.  (The
`detailed_analysis` parameter is accepted but unused, as in the source.) -/
def generate_recommendations (_da : List (String × PyDict))
    (risk_factors : List String) : List String :=
  let recs : List String := []
  let recs := recs ++ (if "DoS Attack Pattern" ∈ risk_factors then
    ["🚨 HIGH PRIORITY: Block source IP - DoS attack detected",
     "📊 Monitor bandwidth usage and implement rate limiting"] else [])
  let recs := recs ++ (if "Fuzzer Attack Pattern" ∈ risk_factors then
    ["🔍 Investigate unusual transaction patterns",
     "🛡️ Implement input validation and sanitization"] else [])
  let recs := recs ++ (if "Port Scan Pattern" ∈ risk_factors then
    ["🔍 Monitor for reconnaissance activities",
     "🚫 Consider blocking suspicious IP addresses"] else [])
  let recs := recs ++ (if "Brute Force Pattern" ∈ risk_factors then
    ["🔐 Implement account lockout policies",
     "🔑 Enable multi-factor authentication"] else [])
  let recs := recs ++ (if "Reconnaissance Pattern" ∈ risk_factors then
    ["👁️ Monitor network scanning activities",
     "🛡️ Implement intrusion detection rules"] else [])
  let recs := recs ++ (if "High Bandwidth Usage" ∈ risk_factors then
    ["📈 Investigate high bandwidth consumption",
     "⚡ Implement bandwidth throttling"] else [])
  let recs := recs ++ (if "Suspicious TCP Behavior" ∈ risk_factors then
    ["🔍 Analyze TCP connection patterns",
     "🛡️ Review firewall rules"] else [])
  let recs := recs ++ (if "Abnormal Packet Size" ∈ risk_factors then
    ["📦 Investigate unusual packet sizes",
     "🔍 Check for fragmentation attacks"] else [])
  let recs := recs ++ (if "Timing Anomaly" ∈ risk_factors then
    ["⏱️ Analyze timing patterns for attacks",
     "🔍 Check for timing-based attacks"] else [])
  let recs := recs ++ (if "Session Anomaly" ∈ risk_factors then
    ["🔐 Monitor session state changes",
     "🛡️ Implement session hijacking protection"] else [])
  if recs = [] then
    ["✅ No immediate security concerns detected",
     "📊 Continue monitoring for anomalies"]
  else recs

/-! ### The comprehensive prediction flow -/

/-- A loaded basic model (`self.basic_models[name]`): `predictFn` returns
`(model.predict(x)[0], predict_proba(x)[0][1] or float(pred))`. -/
structure PrimaryModel where
  predictFn : List ℚ → Except String (Int × ℚ)

/-- The read-only state of a loaded `EnhancedPredictionAPI` instance, plus
`port_scan_fitted`, which models the fitted attributes that
`DBSCAN.fit_predict` rewrites in place on every port-scan call. -/
structure APIState where
  feature_names : List String
  basic_models : List (String × PrimaryModel)
  dos : Option ScoreDetector
  fuzzer : Option LabelDetector
  port_scan : Option PortScanDetector
  brute_force : Option ProbaDetector
  reconnaissance : Option ScoreDetector
  bandwidth : BandwidthThresholds
  tcp : Option TcpDetector
  packet : PacketThresholds
  timing : Option LabelDetector
  session : Option ProbaDetector
  port_scan_fitted : Option (List ℚ)

/-- The detector sequence of `predict_comprehensive` (lines 128–194): in
source order, each entry is `(analysis key, verdict, flag key, risk-factor
name)`; a model-backed entry is present exactly when its model is loaded,
while the bandwidth and packet-size analyses always run. -/
def detectorEntries (st : APIState) (dd : FeatureRow) :
    List (String × PyDict × String × String) :=
  (match st.dos with
   | some d => [("dos_detection", detect_dos (some d) dd, "is_dos", "DoS Attack Pattern")]
   | none => []) ++
  (match st.fuzzer with
   | some d => [("fuzzer_detection", detect_fuzzer (some d) dd, "is_fuzzer",
                 "Fuzzer Attack Pattern")]
   | none => []) ++
  (match st.port_scan with
   | some d => [("port_scan_detection", detect_port_scan (some d) dd, "is_port_scan",
                 "Port Scan Pattern")]
   | none => []) ++
  (match st.brute_force with
   | some d => [("brute_force_detection", detect_brute_force (some d) dd,
                 "is_brute_force", "Brute Force Pattern")]
   | none => []) ++
  (match st.reconnaissance with
   | some d => [("reconnaissance_detection", detect_reconnaissance (some d) dd,
                 "is_reconnaissance", "Reconnaissance Pattern")]
   | none => []) ++
  [("bandwidth_analysis", analyze_bandwidth st.bandwidth dd, "high_bandwidth",
    "High Bandwidth Usage")] ++
  (match st.tcp with
   | some d => [("tcp_behavior_analysis", analyze_tcp_behavior (some d) dd,
                 "suspicious_tcp", "Suspicious TCP Behavior")]
   | none => []) ++
  [("packet_size_analysis", analyze_packet_sizes st.packet dd,
    "abnormal_packet_size", "Abnormal Packet Size")] ++
  (match st.timing with
   | some d => [("timing_analysis", analyze_timing (some d) dd, "timing_anomaly",
                 "Timing Anomaly")]
   | none => []) ++
  (match st.session with
   | some d => [("session_analysis", analyze_session (some d) dd, "session_anomaly",
                 "Session Anomaly")]
   | none => [])

/-- The `detailed_analysis` dict and `risk_factors` list accumulated by
`predict_comprehensive`. -/
def runDetectors (st : APIState) (dd : FeatureRow) :
    List (String × PyDict) × List String :=
  ((detectorEntries st dd).map (fun e => (e.1, e.2.1)),
   (detectorEntries st dd).filterMap
     (fun e => if pyFlag e.2.1 e.2.2.1 then some e.2.2.2 else none))

/-- The `results` dict of `predict_comprehensive`, minus the wall-clock
`timestamp` field.  Field defaults are the initial values assigned at the
top of the method; `risk_factors` is `none` until line 199 assigns it. -/
structure Results where
  primary_prediction : Option Int := none
  attack_probability : ℚ := 0
  attack_type : String := "Normal"
  detailed_analysis : List (String × PyDict) := []
  risk_score : ℚ := 0
  risk_factors : Option (List String) := none
  recommendations : List String := []
  error : Option String := none
deriving DecidableEq

/-- The tail of the `try` block once the primary prediction succeeded:
run all detectors, compute the risk score, attach risk factors and
recommendations. -/
def finishResults (st : APIState) (dd : FeatureRow) (r : Results) : Results :=
  let da := (runDetectors st dd).1
  let rf := (runDetectors st dd).2
  { r with
    risk_score := calculate_risk_score da r.attack_probability
    risk_factors := some rf
    detailed_analysis := da
    recommendations := generate_recommendations da rf }

/-- The body of `predict_comprehensive` after input preparation: primary
prediction when `model_name` is loaded (an exception there is caught by the
outer handler, which stores the message under `'error'` and returns the
partially-filled results), then the detector cascade. -/
def predictBody (st : APIState) (data_array : List ℚ) (data_dict : FeatureRow)
    (model_name : String) : Results :=
  match assocFind st.basic_models model_name with
  | some m =>
    match m.predictFn data_array with
    | .error e => { error := some e }
    | .ok pp =>
      finishResults st data_dict
        { primary_prediction := some pp.1
          attack_probability := pp.2
          attack_type := if pp.1 = 1 then "Attack" else "Normal" }
  | none => finishResults st data_dict {}

/-- The `row_data` argument of `predict_comprehensive`: a mapping, a
sequence, or anything else (which the input check rejects). -/
inductive RowData : Type
  | dict : FeatureRow → RowData
  | list : List ℚ → RowData
  | other : RowData

/-- Embedding of `EnhancedPredictionAPI.predict_comprehensive`.  A dict row
is completed to `feature_names` order with missing features as 0; a list row
is used as-is and zipped with `feature_names` for the per-detector dict; any
other input raises `ValueError("Invalid input format")`, which the outer
handler converts into the default results plus an `'error'` entry. -/
def predict_comprehensive (st : APIState) (row_data : RowData)
    (model_name : String) : Results :=
  match row_data with
  | .dict d => predictBody st (st.feature_names.map (fun f => rowGet d f)) d model_name
  | .list l => predictBody st l (st.feature_names.zip l) model_name
  | .other => { error := some "Invalid input format" }

/-- Whether the primary-prediction step raises (aborting the method before
any detector runs). -/
def primaryRaises (st : APIState) (data_array : List ℚ) (model_name : String) : Bool :=
  match assocFind st.basic_models model_name with
  | some m =>
    match m.predictFn data_array with
    | .ok _ => false
    | .error _ => true
  | none => false

/-- The refit state `DBSCAN.fit_predict` leaves behind when the port-scan
branch runs: the (scaled) single-row dataset it was just fit on. -/
def portScanRefit (st : APIState) (dd : FeatureRow) : Option (List ℚ) :=
  match st.port_scan with
  | some d =>
    match d.scaleFn (d.features.map (fun f => rowGet dd f)) with
    | .ok scaled => some scaled
    | .error _ => st.port_scan_fitted
  | none => st.port_scan_fitted

/-- The API state after one `predict_comprehensive` call: identical except
for the DBSCAN fitted attributes, which are rewritten whenever the detector
cascade is reached and the port-scan model branch completes its fit. -/
def nextState (st : APIState) (row_data : RowData) (model_name : String) : APIState :=
  match row_data with
  | .dict d =>
    if primaryRaises st (st.feature_names.map (fun f => rowGet d f)) model_name then st
    else { st with port_scan_fitted := portScanRefit st d }
  | .list l =>
    if primaryRaises st l model_name then st
    else { st with port_scan_fitted := portScanRefit st (st.feature_names.zip l) }
  | .other => st

/-- `predict_comprehensive` together with the state mutation it performs on
the loaded models (the DBSCAN refit). -/
def predict_comprehensive_stateful (st : APIState) (row_data : RowData)
    (model_name : String) : Results × APIState :=
  (predict_comprehensive st row_data model_name, nextState st row_data model_name)

/-! ### The dashboard attack-type heuristic -/

/-- Embedding of `detect_attack_types` from `clean_dashboard.py`
(lines 116–231): seventeen independent threshold predicates over absolute
feature values, appending category names in source order. -/
def detect_attack_types (data : FeatureRow) : List String :=
  let sload := |rowGet data "sload"|
  let dload := |rowGet data "dload"|
  let spkts := |rowGet data "spkts"|
  let dpkts := |rowGet data "dpkts"|
  let trans_depth := |rowGet data "trans_depth"|
  let response_body_len := |rowGet data "response_body_len"|
  let ct_src_dport_ltm := |rowGet data "ct_src_dport_ltm"|
  let ct_dst_sport_ltm := |rowGet data "ct_dst_sport_ltm"|
  let is_ftp_login := |rowGet data "is_ftp_login"|
  let ct_ftp_cmd := |rowGet data "ct_ftp_cmd"|
  let ct_dst_ltm := |rowGet data "ct_dst_ltm"|
  let is_sm_ips_ports := |rowGet data "is_sm_ips_ports"|
  let tcprtt := |rowGet data "tcprtt"|
  let synack := |rowGet data "synack"|
  let ackdat := |rowGet data "ackdat"|
  let stcpb := |rowGet data "stcpb"|
  let dtcpb := |rowGet data "dtcpb"|
  let smean := |rowGet data "smean"|
  let dmean := |rowGet data "dmean"|
  let state := |rowGet data "state"|
  let dur := |rowGet data "dur"|
  let sjit := |rowGet data "sjit"|
  let djit := |rowGet data "djit"|
  let ct_srv_src := |rowGet data "ct_srv_src"|
  let ct_srv_dst := |rowGet data "ct_srv_dst"|
  let ct_dst_src_ltm := |rowGet data "ct_dst_src_ltm"|
  let ct_src_ltm := |rowGet data "ct_src_ltm"|
  let sinpkt := |rowGet data "sinpkt"|
  let dinpkt := |rowGet data "dinpkt"|
  let ats : List String := []
  let ats := ats ++ (if sload > 1.5 ∨ dload > 1.5 ∨ spkts > 1.5 ∨ dpkts > 1.5 then
    ["DoS"] else [])
  let ats := ats ++ (if trans_depth > 1.5 ∨ response_body_len < -1.5 then
    ["Fuzzer"] else [])
  let ats := ats ++ (if ct_src_dport_ltm > 1.5 ∨ ct_dst_sport_ltm > 1.5 then
    ["Port_Scan"] else [])
  let ats := ats ++ (if is_ftp_login > 0.5 ∧ ct_ftp_cmd > 0.5 then
    ["Brute_Force"] else [])
  let ats := ats ++ (if ct_dst_ltm > 1.5 then ["Reconnaissance"] else [])
  let ats := ats ++ (if is_sm_ips_ports > 1.5 then ["Anomalous_IP"] else [])
  let ats := ats ++ (if sload > 1.0 ∨ dload > 1.0 then ["High_Bandwidth"] else [])
  let ats := ats ++ (if tcprtt > 1.0 ∨ synack > 1.0 ∨ ackdat > 1.0 then
    ["Suspicious_TCP"] else [])
  let ats := ats ++ (if stcpb > 1.5 ∨ dtcpb > 1.5 then ["Replay_Attack"] else [])
  let ats := ats ++ (if smean > 1.5 ∨ dmean > 1.5 then ["Abnormal_Packet"] else [])
  let ats := ats ++ (if state > 1.0 ∧ dur < -1.0 then ["Session_Hijacking"] else [])
  let ats := ats ++ (if sjit > 1.0 ∨ djit > 1.0 then ["Jitter_Anomaly"] else [])
  let ats := ats ++ (if dur > 1.0 ∧ trans_depth > 1.0 then ["Slowloris"] else [])
  let ats := ats ++ (if ct_srv_src > 1.0 ∨ ct_srv_dst > 1.0 then
    ["Service_Abuse"] else [])
  let ats := ats ++ (if ct_dst_src_ltm > 1.0 ∧ ct_src_ltm > 1.0 then
    ["Traffic_Correlation"] else [])
  let ats := ats ++ (if sload > 1.0 ∧ dload > 1.0 ∧ dur > 1.0 then
    ["Worm_Spread"] else [])
  let ats := ats ++ (if sinpkt > 1.0 ∨ dinpkt > 1.0 then ["Timing_Attack"] else [])
  ats

/-! ## Shared helper definitions and lemmas for the theorems -/

/-- A `detailed_analysis` in which every analysis type is present and carries
the given flag value (the shape reached when all ten analyses ran). -/
def mkDA (dos fuzzer port brute recon band tcp packet timing session : Bool) :
    List (String × PyDict) :=
  [("dos_detection", [("is_dos", .bool dos)]),
   ("fuzzer_detection", [("is_fuzzer", .bool fuzzer)]),
   ("port_scan_detection", [("is_port_scan", .bool port)]),
   ("brute_force_detection", [("is_brute_force", .bool brute)]),
   ("reconnaissance_detection", [("is_reconnaissance", .bool recon)]),
   ("bandwidth_analysis", [("high_bandwidth", .bool band)]),
   ("tcp_behavior_analysis", [("suspicious_tcp", .bool tcp)]),
   ("packet_size_analysis", [("abnormal_packet_size", .bool packet)]),
   ("timing_analysis", [("timing_anomaly", .bool timing)]),
   ("session_analysis", [("session_anomaly", .bool session)])]

/-- The contribution of one boolean flag with weight `w` to the weighted sum. -/
def contrib (b : Bool) (w : ℚ) : ℚ := if b then w else 0

theorem ite_add_contrib (b : Bool) (a w : ℚ) :
    (if b = true then a + w else a) = a + contrib b w := by
  cases b <;> simp [contrib]

/-- Closed form of `_calculate_risk_score` on a fully-populated
`detailed_analysis`: the base term `p * 0.4` plus one weight per raised flag,
capped at 1. -/
theorem calc_risk_mkDA (p : ℚ) (b1 b2 b3 b4 b5 b6 b7 b8 b9 b10 : Bool) :
    calculate_risk_score (mkDA b1 b2 b3 b4 b5 b6 b7 b8 b9 b10) p =
      min (p * 0.4 + contrib b1 0.2 + contrib b2 0.15 + contrib b3 0.15 +
        contrib b4 0.1 + contrib b5 0.1 + contrib b6 0.05 + contrib b7 0.05 +
        contrib b8 0.05 + contrib b9 0.05 + contrib b10 0.05) 1 := by
  have h1 : daFlag (mkDA b1 b2 b3 b4 b5 b6 b7 b8 b9 b10) "dos_detection" "is_dos" = b1 := rfl
  have h2 : daFlag (mkDA b1 b2 b3 b4 b5 b6 b7 b8 b9 b10) "fuzzer_detection" "is_fuzzer" = b2 := rfl
  have h3 : daFlag (mkDA b1 b2 b3 b4 b5 b6 b7 b8 b9 b10) "port_scan_detection" "is_port_scan" = b3 := rfl
  have h4 : daFlag (mkDA b1 b2 b3 b4 b5 b6 b7 b8 b9 b10) "brute_force_detection" "is_brute_force" = b4 := rfl
  have h5 : daFlag (mkDA b1 b2 b3 b4 b5 b6 b7 b8 b9 b10) "reconnaissance_detection" "is_reconnaissance" = b5 := rfl
  have h6 : daFlag (mkDA b1 b2 b3 b4 b5 b6 b7 b8 b9 b10) "bandwidth_analysis" "high_bandwidth" = b6 := rfl
  have h7 : daFlag (mkDA b1 b2 b3 b4 b5 b6 b7 b8 b9 b10) "tcp_behavior_analysis" "suspicious_tcp" = b7 := rfl
  have h8 : daFlag (mkDA b1 b2 b3 b4 b5 b6 b7 b8 b9 b10) "packet_size_analysis" "abnormal_packet_size" = b8 := rfl
  have h9 : daFlag (mkDA b1 b2 b3 b4 b5 b6 b7 b8 b9 b10) "timing_analysis" "timing_anomaly" = b9 := rfl
  have h10 : daFlag (mkDA b1 b2 b3 b4 b5 b6 b7 b8 b9 b10) "session_analysis" "session_anomaly" = b10 := rfl
  simp only [calculate_risk_score, riskWeights, List.foldl_cons, List.foldl_nil,
    h1, h2, h3, h4, h5, h6, h7, h8, h9, h10, ite_add_contrib]

/-! ## Claim C1 -/

/-- C1 counterexample: the per-detector weights of `_calculate_risk_score`
sum to 0.95, not 0.6, so with `primary_probability = 1` and every detector
firing the total before capping is 1.35, not exactly 1.0. -/
theorem c1_counterexample :
    (riskWeights.map (fun w => w.2.2)).sum = 0.95
  ∧ (riskWeights.map (fun w => w.2.2)).sum ≠ 0.6
  ∧ (1 : ℚ) * 0.4 + (riskWeights.map (fun w => w.2.2)).sum = 1.35
  ∧ ((1.35 : ℚ) ≠ 1) := by
  norm_num [riskWeights]

/-- C1 (amended): risk_score is exactly `0.4 * primary_probability` plus, for
each detector whose flag is true, that detector's fixed weight, capped at
1.0; the fixed weights sum to 0.95 across the ten detectors, so with
`primary_probability = 1` and every detector firing the total before capping
is 1.35 and the returned score is the cap 1.0. -/
theorem c1_risk_score_formula (p : ℚ) (b1 b2 b3 b4 b5 b6 b7 b8 b9 b10 : Bool) :
    calculate_risk_score (mkDA b1 b2 b3 b4 b5 b6 b7 b8 b9 b10) p =
      min (p * 0.4 + contrib b1 0.2 + contrib b2 0.15 + contrib b3 0.15 +
        contrib b4 0.1 + contrib b5 0.1 + contrib b6 0.05 + contrib b7 0.05 +
        contrib b8 0.05 + contrib b9 0.05 + contrib b10 0.05) 1
  ∧ (riskWeights.map (fun w => w.2.2)).sum = 0.95
  ∧ calculate_risk_score (mkDA true true true true true true true true true true) 1 = 1 := by
  refine ⟨calc_risk_mkDA p b1 b2 b3 b4 b5 b6 b7 b8 b9 b10, by norm_num [riskWeights], ?_⟩
  rw [calc_risk_mkDA]
  rw [min_eq_right (by norm_num [contrib])]

/-! ## Claim C7 -/

/-- C7: for every fixed `primary_probability` and fixed verdicts of the other
detectors, flipping any single detector flag from false to true never
decreases the computed risk score (one conjunct per detector position in
`riskWeights` order). -/
theorem c7_flip_monotone (p : ℚ) (b1 b2 b3 b4 b5 b6 b7 b8 b9 b10 : Bool) :
    calculate_risk_score (mkDA false b2 b3 b4 b5 b6 b7 b8 b9 b10) p ≤
      calculate_risk_score (mkDA true b2 b3 b4 b5 b6 b7 b8 b9 b10) p
  ∧ calculate_risk_score (mkDA b1 false b3 b4 b5 b6 b7 b8 b9 b10) p ≤
      calculate_risk_score (mkDA b1 true b3 b4 b5 b6 b7 b8 b9 b10) p
  ∧ calculate_risk_score (mkDA b1 b2 false b4 b5 b6 b7 b8 b9 b10) p ≤
      calculate_risk_score (mkDA b1 b2 true b4 b5 b6 b7 b8 b9 b10) p
  ∧ calculate_risk_score (mkDA b1 b2 b3 false b5 b6 b7 b8 b9 b10) p ≤
      calculate_risk_score (mkDA b1 b2 b3 true b5 b6 b7 b8 b9 b10) p
  ∧ calculate_risk_score (mkDA b1 b2 b3 b4 false b6 b7 b8 b9 b10) p ≤
      calculate_risk_score (mkDA b1 b2 b3 b4 true b6 b7 b8 b9 b10) p
  ∧ calculate_risk_score (mkDA b1 b2 b3 b4 b5 false b7 b8 b9 b10) p ≤
      calculate_risk_score (mkDA b1 b2 b3 b4 b5 true b7 b8 b9 b10) p
  ∧ calculate_risk_score (mkDA b1 b2 b3 b4 b5 b6 false b8 b9 b10) p ≤
      calculate_risk_score (mkDA b1 b2 b3 b4 b5 b6 true b8 b9 b10) p
  ∧ calculate_risk_score (mkDA b1 b2 b3 b4 b5 b6 b7 false b9 b10) p ≤
      calculate_risk_score (mkDA b1 b2 b3 b4 b5 b6 b7 true b9 b10) p
  ∧ calculate_risk_score (mkDA b1 b2 b3 b4 b5 b6 b7 b8 false b10) p ≤
      calculate_risk_score (mkDA b1 b2 b3 b4 b5 b6 b7 b8 true b10) p
  ∧ calculate_risk_score (mkDA b1 b2 b3 b4 b5 b6 b7 b8 b9 false) p ≤
      calculate_risk_score (mkDA b1 b2 b3 b4 b5 b6 b7 b8 b9 true) p := by
  refine ⟨?_, ?_, ?_, ?_, ?_, ?_, ?_, ?_, ?_, ?_⟩ <;>
    (rw [calc_risk_mkDA, calc_risk_mkDA]
     refine min_le_min ?_ le_rfl
     simp [contrib]
     linarith)

/-! ## Claim C2 -/

/-- C2 counterexample: on the empty row, which is missing every feature of
the detector's group, `_detect_dos` still evaluates the model on the
zero-filled vector and can flag (contributing its full 0.2 weight to the
risk score), and `_detect_fuzzer` returns confidence 0.2, not 0 — the
detectors do not return a "not applicable" verdict on feature absence. -/
theorem c2_counterexample :
    pyGet (detect_dos (some ⟨["sload", "dload", "spkts", "dpkts"],
        fun _ => Except.ok (-1), -1/10⟩) []) "is_dos" (.bool false) = .bool true
  ∧ pyGet (detect_fuzzer (some ⟨["trans_depth", "response_body_len"],
        fun _ => Except.ok 1⟩) []) "confidence" (.num 0) = .num 0.2
  ∧ calculate_risk_score [("dos_detection", detect_dos (some ⟨["sload", "dload", "spkts", "dpkts"],
        fun _ => Except.ok (-1), -1/10⟩) [])] 0 = 0.2
  ∧ (0.2 : ℚ) ≠ 0 := by
  refine ⟨?_, ?_, ?_, by norm_num⟩
  · simp [detect_dos, rowGet, assocFind, pyGet]
    norm_num
  · simp [detect_fuzzer, rowGet, assocFind, pyGet]
  · simp [detect_dos, rowGet, assocFind]
    norm_num
    simp [calculate_risk_score, riskWeights, daFlag, assocFind, pyFlag, pyGet, PyVal.truthy]
    norm_num

/-- C2 (amended): a detector reads each required feature with `data.get(f, 0)`,
so absent features are read as 0 and the detector evaluates normally on the
zero-filled vector — its verdict equals the verdict on any row that supplies
the same values for the group's features; the "not applicable" verdict
(flag false, confidence 0) arises only when the model is absent from
`self.models` or the evaluation raises. -/
theorem c2_absent_features_read_as_zero :
    (∀ (d : ScoreDetector) (r r' : FeatureRow),
        (∀ f ∈ d.features, rowGet r f = rowGet r' f) →
        detect_dos (some d) r = detect_dos (some d) r')
  ∧ (∀ (d : LabelDetector) (r r' : FeatureRow),
        (∀ f ∈ d.features, rowGet r f = rowGet r' f) →
        detect_fuzzer (some d) r = detect_fuzzer (some d) r')
  ∧ (∀ (d : ProbaDetector) (r r' : FeatureRow),
        (∀ f ∈ d.features, rowGet r f = rowGet r' f) →
        detect_brute_force (some d) r = detect_brute_force (some d) r')
  ∧ (∀ (t : BandwidthThresholds) (r r' : FeatureRow),
        rowGet r "sload" = rowGet r' "sload" →
        rowGet r "dload" = rowGet r' "dload" →
        rowGet r "rate" = rowGet r' "rate" →
        analyze_bandwidth t r = analyze_bandwidth t r')
  ∧ (∀ r, detect_dos none r = dosFallback) := by
  refine ⟨?_, ?_, ?_, ?_, fun r => rfl⟩
  · intro d r r' h
    have hv : d.features.map (fun f => rowGet r f) = d.features.map (fun f => rowGet r' f) :=
      List.map_congr_left h
    simp only [detect_dos, hv]
  · intro d r r' h
    have hv : d.features.map (fun f => rowGet r f) = d.features.map (fun f => rowGet r' f) :=
      List.map_congr_left h
    simp only [detect_fuzzer, hv]
  · intro d r r' h
    have hv : d.features.map (fun f => rowGet r f) = d.features.map (fun f => rowGet r' f) :=
      List.map_congr_left h
    simp only [detect_brute_force, hv]
  · intro t r r' h1 h2 h3
    simp only [analyze_bandwidth, h1, h2, h3]

/-- C2 witness: the empty row and a row supplying `spkts = 0` (plus an
unrelated feature) agree on the DoS feature group, so the DoS detector
returns the same verdict on both. -/
theorem c2_witness :
    (∀ f ∈ (["sload", "dload", "spkts", "dpkts"] : List String),
        rowGet [] f = rowGet [("spkts", 0), ("irrelevant", 3)] f)
  ∧ detect_dos (some ⟨["sload", "dload", "spkts", "dpkts"], fun _ => Except.ok 0, -1/10⟩) []
      = detect_dos (some ⟨["sload", "dload", "spkts", "dpkts"], fun _ => Except.ok 0, -1/10⟩)
          [("spkts", 0), ("irrelevant", 3)] := by
  have h : ∀ f ∈ (["sload", "dload", "spkts", "dpkts"] : List String),
      rowGet [] f = rowGet [("spkts", 0), ("irrelevant", 3)] f := by
    simp [List.forall_mem_cons, rowGet, assocFind]
  exact ⟨h, c2_absent_features_read_as_zero.1 _ [] [("spkts", 0), ("irrelevant", 3)] h⟩

/-! ## Claim C3 -/

theorem pyFlag_dosFallback : pyFlag dosFallback "is_dos" = false := rfl

theorem daFlag_cons_hit (t : String) (dict : PyDict) (L : List (String × PyDict)) (k : String) :
    daFlag ((t, dict) :: L) t k = pyFlag dict k := by
  simp [daFlag, assocFind]

theorem daFlag_cons_miss (t' : String) (dict : PyDict) (L : List (String × PyDict))
    (t k : String) (h : ¬ t' = t) :
    daFlag ((t', dict) :: L) t k = daFlag L t k := by
  simp [daFlag, assocFind, h]

theorem daFlag_of_none (L : List (String × PyDict)) (t k : String)
    (h : assocFind L t = none) : daFlag L t k = false := by
  simp [daFlag, h]

/-- Prepending the DoS fallback verdict to a `detailed_analysis` that has no
`dos_detection` entry leaves the risk score unchanged (the fallback flag is
false, so the DoS weight is not added). -/
theorem calc_risk_cons_dosFallback (L : List (String × PyDict)) (p : ℚ)
    (h : assocFind L "dos_detection" = none) :
    calculate_risk_score (("dos_detection", dosFallback) :: L) p =
      calculate_risk_score L p := by
  simp only [calculate_risk_score, riskWeights, List.foldl_cons, List.foldl_nil,
    daFlag_cons_hit, pyFlag_dosFallback,
    daFlag_cons_miss _ _ _ _ _ (by simp : ¬ "dos_detection" = "fuzzer_detection"),
    daFlag_cons_miss _ _ _ _ _ (by simp : ¬ "dos_detection" = "port_scan_detection"),
    daFlag_cons_miss _ _ _ _ _ (by simp : ¬ "dos_detection" = "brute_force_detection"),
    daFlag_cons_miss _ _ _ _ _ (by simp : ¬ "dos_detection" = "reconnaissance_detection"),
    daFlag_cons_miss _ _ _ _ _ (by simp : ¬ "dos_detection" = "bandwidth_analysis"),
    daFlag_cons_miss _ _ _ _ _ (by simp : ¬ "dos_detection" = "tcp_behavior_analysis"),
    daFlag_cons_miss _ _ _ _ _ (by simp : ¬ "dos_detection" = "packet_size_analysis"),
    daFlag_cons_miss _ _ _ _ _ (by simp : ¬ "dos_detection" = "timing_analysis"),
    daFlag_cons_miss _ _ _ _ _ (by simp : ¬ "dos_detection" = "session_analysis"),
    daFlag_of_none _ _ _ h, Bool.false_eq_true, if_false]

/-- When the DoS model is not loaded, no `dos_detection` entry appears in the
accumulated `detailed_analysis`. -/
theorem dos_absent_not_in_analysis (st : APIState) (dd : FeatureRow)
    (h : st.dos = none) :
    assocFind (runDetectors st dd).1 "dos_detection" = none := by
  obtain ⟨fn, bm, dos, fz, ps, bf, rc, bw, tc, pk, tm, ss, fit⟩ := st
  simp only at h
  subst h
  cases fz <;> cases ps <;> cases bf <;> cases rc <;> cases tc <;> cases tm <;> cases ss <;> rfl

/-- C3 counterexample: an exception inside `_detect_dos` yields exactly the
plain fallback dict, none of whose values is a string — no diagnostic string
is attached to the verdict (`except: pass` discards the exception). -/
theorem c3_counterexample :
    detect_dos (some ⟨["sload", "dload", "spkts", "dpkts"],
        fun _ => Except.error "ValueError", -1/10⟩) [("sload", 1)] = dosFallback
  ∧ dosFallback.all (fun kv => !kv.2.isStr) = true :=
  ⟨by simp [detect_dos], rfl⟩

/-- C3 (amended): an exception raised inside one detector's evaluation is
caught at that detector's boundary and converted to the fixed "not
applicable" verdict (flag false, confidence 0, no diagnostic string
attached); it never escapes into another detector's evaluation or into the
final score computation — relative to the same state without the failing
detector, the other entries of `detailed_analysis`, the risk factors, and
the risk score are unchanged. -/
theorem c3_exception_isolated (st : APIState) (d : ScoreDetector) (row : FeatureRow)
    (msg : String) (p : ℚ)
    (hdos : st.dos = some d)
    (herr : d.scoreFn (d.features.map (fun f => rowGet row f)) = .error msg) :
    detect_dos (some d) row = dosFallback
  ∧ dosFallback.all (fun kv => !kv.2.isStr) = true
  ∧ (runDetectors st row).1
      = ("dos_detection", dosFallback) :: (runDetectors { st with dos := none } row).1
  ∧ (runDetectors st row).2 = (runDetectors { st with dos := none } row).2
  ∧ calculate_risk_score (runDetectors st row).1 p
      = calculate_risk_score (runDetectors { st with dos := none } row).1 p := by
  have hfall : detect_dos (some d) row = dosFallback := by
    simp [detect_dos, herr]
  obtain ⟨fn, bm, dos, fz, ps, bf, rc, bw, tc, pk, tm, ss, fit⟩ := st
  simp only at hdos
  subst hdos
  have hcons : (runDetectors ⟨fn, bm, some d, fz, ps, bf, rc, bw, tc, pk, tm, ss, fit⟩ row).1
      = ("dos_detection", dosFallback)
        :: (runDetectors ⟨fn, bm, none, fz, ps, bf, rc, bw, tc, pk, tm, ss, fit⟩ row).1 := by
    simp [runDetectors, detectorEntries, hfall]
  have hnone : assocFind
      (runDetectors ⟨fn, bm, none, fz, ps, bf, rc, bw, tc, pk, tm, ss, fit⟩ row).1
      "dos_detection" = none :=
    dos_absent_not_in_analysis _ row rfl
  refine ⟨hfall, rfl, hcons, ?_, ?_⟩
  · simp [runDetectors, detectorEntries, hfall, pyFlag_dosFallback]
  · rw [hcons, calc_risk_cons_dosFallback _ p hnone]

/-- The erroring DoS detector used in the C3 witness. -/
def cDet3 : ScoreDetector :=
  ⟨["sload", "dload", "spkts", "dpkts"], fun _ => Except.error "boom", -1/10⟩

/-- A loaded state whose only model detector is the erroring DoS detector. -/
def cSt3 : APIState :=
  { feature_names := []
    basic_models := []
    dos := some cDet3
    fuzzer := none
    port_scan := none
    brute_force := none
    reconnaissance := none
    bandwidth := ⟨1, 1, 1⟩
    tcp := none
    packet := ⟨-2, 2, -2, 2⟩
    timing := none
    session := none
    port_scan_fitted := none }

/-- C3 witness: the hypotheses of `c3_exception_isolated` hold at the
concrete state `cSt3` on the empty row. -/
theorem c3_witness :
    (cSt3.dos = some cDet3
      ∧ cDet3.scoreFn (cDet3.features.map (fun f => rowGet [] f)) = Except.error "boom")
  ∧ detect_dos (some cDet3) [] = dosFallback :=
  ⟨⟨rfl, rfl⟩, (c3_exception_isolated cSt3 cDet3 [] "boom" 0 rfl rfl).1⟩

/-! ## Claim C4 -/

/-- C4 (amended): a row that is neither a dict nor a list raises
`ValueError("Invalid input format")` inside the `try` block; the outer
handler catches it and the call returns the default results dict with the
message stored under `'error'` — the default (partial) assessment is
returned to the caller rather than the call failing with an error. -/
theorem c4_invalid_input_returns_default (st : APIState) (mn : String) :
    predict_comprehensive st RowData.other mn =
      { error := some "Invalid input format" } := rfl

/-- A loaded state with no model detectors, used for the C4 counterexample. -/
def cSt4 : APIState :=
  { feature_names := ["sload"]
    basic_models := []
    dos := none
    fuzzer := none
    port_scan := none
    brute_force := none
    reconnaissance := none
    bandwidth := ⟨1, 1, 1⟩
    tcp := none
    packet := ⟨-2, 2, -2, 2⟩
    timing := none
    session := none
    port_scan_fitted := none }

/-- C4 counterexample: on an invalid input, `predict_comprehensive` does not
fail — it returns a results dict carrying the default assessment fields
(risk_score 0, attack_type "Normal", empty recommendations) together with
the error string, so a partial assessment IS returned to the caller. -/
theorem c4_counterexample :
    (predict_comprehensive cSt4 RowData.other "random_forest").error
        = some "Invalid input format"
  ∧ (predict_comprehensive cSt4 RowData.other "random_forest").risk_score = 0
  ∧ (predict_comprehensive cSt4 RowData.other "random_forest").attack_type = "Normal"
  ∧ (predict_comprehensive cSt4 RowData.other "random_forest").recommendations = []
  ∧ (predict_comprehensive cSt4 RowData.other "random_forest").risk_factors = none :=
  ⟨rfl, rfl, rfl, rfl, rfl⟩

/-! ## Claim C5 -/

/-- The numeric value of a verdict's `confidence` entry. -/
def confOf (d : PyDict) : ℚ :=
  match pyGet d "confidence" (.num 0) with
  | .num q => q
  | _ => 0

/-- C5 counterexample: with the code's default DoS threshold −0.1 and a model
score of −1 (both entirely plausible for a fitted IsolationForest), the DoS
confidence `abs(score - threshold) / abs(threshold)` is 9, far above 1. -/
theorem c5_counterexample :
    pyGet (detect_dos (some ⟨["sload", "dload", "spkts", "dpkts"],
        fun _ => Except.ok (-1), -1/10⟩) [("sload", 0)]) "confidence" (.num 0) = .num 9
  ∧ ¬ ((9 : ℚ) ≤ 1) := by
  refine ⟨?_, by norm_num⟩
  simp [detect_dos, pyGet, assocFind, rowGet]
  norm_num
  rw [abs_of_nonneg (by norm_num : (0 : ℚ) ≤ 9/10),
      abs_of_nonneg (by norm_num : (0 : ℚ) ≤ 1/10)]
  norm_num

/-- C5 (amended): the confidences of the fuzzer, timing and port-scan
detectors (and of every fallback verdict) lie in [0,1], and the brute-force
and session confidences lie in [0,1] whenever the underlying model
probability does; but the anomaly-score confidences — DoS/reconnaissance
`abs(score - threshold)/abs(threshold)` and TCP `abs(score)` — are unbounded
and exceed 1 for realizable model scores. -/
theorem c5_confidence_bounds :
    (∀ (det : Option LabelDetector) (row : FeatureRow),
        0 ≤ confOf (detect_fuzzer det row) ∧ confOf (detect_fuzzer det row) ≤ 1)
  ∧ (∀ (det : Option LabelDetector) (row : FeatureRow),
        0 ≤ confOf (analyze_timing det row) ∧ confOf (analyze_timing det row) ≤ 1)
  ∧ (∀ (det : Option PortScanDetector) (row : FeatureRow),
        0 ≤ confOf (detect_port_scan det row) ∧ confOf (detect_port_scan det row) ≤ 1)
  ∧ (∀ (det : ProbaDetector) (row : FeatureRow),
        (∀ x pr q, det.predictFn x = Except.ok (pr, q) → 0 ≤ q ∧ q ≤ 1) →
        0 ≤ confOf (detect_brute_force (some det) row)
          ∧ confOf (detect_brute_force (some det) row) ≤ 1)
  ∧ (∀ (det : ProbaDetector) (row : FeatureRow),
        (∀ x pr q, det.predictFn x = Except.ok (pr, q) → 0 ≤ q ∧ q ≤ 1) →
        0 ≤ confOf (analyze_session (some det) row)
          ∧ confOf (analyze_session (some det) row) ≤ 1)
  ∧ (∃ (det : ScoreDetector) (row : FeatureRow), 1 < confOf (detect_dos (some det) row))
  ∧ (∃ (det : TcpDetector) (row : FeatureRow),
        1 < confOf (analyze_tcp_behavior (some det) row)) := by
  refine ⟨?_, ?_, ?_, ?_, ?_, ?_, ?_⟩
  · rintro (_ | d) row
    · simp [detect_fuzzer, confOf, fuzzerFallback, pyGet, assocFind]
    · cases hp : d.predictFn (d.features.map (fun f => rowGet row f)) with
      | error e => simp [detect_fuzzer, hp, confOf, fuzzerFallback, pyGet, assocFind]
      | ok pred =>
        by_cases hpred : pred = -1 <;>
          simp [detect_fuzzer, hp, confOf, pyGet, assocFind, hpred] <;> norm_num
  · rintro (_ | d) row
    · simp [analyze_timing, confOf, timingFallback, pyGet, assocFind]
    · cases hp : d.predictFn (d.features.map (fun f => rowGet row f)) with
      | error e => simp [analyze_timing, hp, confOf, timingFallback, pyGet, assocFind]
      | ok pred =>
        by_cases hpred : pred = -1 <;>
          simp [analyze_timing, hp, confOf, pyGet, assocFind, hpred] <;> norm_num
  · rintro (_ | d) row
    · simp [detect_port_scan, confOf, portScanFallback, pyGet, assocFind]
    · cases hp : d.scaleFn (d.features.map (fun f => rowGet row f)) with
      | error e => simp [detect_port_scan, hp, confOf, portScanFallback, pyGet, assocFind]
      | ok v =>
        by_cases hpred : dbscan_fit_predict_single d.min_samples = -1 <;>
          simp [detect_port_scan, hp, confOf, pyGet, assocFind, hpred] <;> norm_num
  · intro d row hbound
    cases hp : d.predictFn (d.features.map (fun f => rowGet row f)) with
    | error e => simp [detect_brute_force, hp, confOf, bruteForceFallback, pyGet, assocFind]
    | ok pq =>
      obtain ⟨pr, q⟩ := pq
      have hq := hbound _ pr q hp
      simp [detect_brute_force, hp, confOf, pyGet, assocFind]
      exact hq
  · intro d row hbound
    cases hp : d.predictFn (d.features.map (fun f => rowGet row f)) with
    | error e => simp [analyze_session, hp, confOf, sessionFallback, pyGet, assocFind]
    | ok pq =>
      obtain ⟨pr, q⟩ := pq
      have hq := hbound _ pr q hp
      simp [analyze_session, hp, confOf, pyGet, assocFind]
      exact hq
  · refine ⟨⟨["sload"], fun _ => Except.ok (-2), -1/10⟩, [], ?_⟩
    simp [detect_dos, confOf, pyGet, assocFind, rowGet]
    norm_num
    rw [abs_of_nonneg (by norm_num : (0 : ℚ) ≤ 19/10),
        abs_of_nonneg (by norm_num : (0 : ℚ) ≤ 1/10)]
    norm_num
  · refine ⟨⟨["tcprtt"], fun _ => Except.ok (-5)⟩, [], ?_⟩
    simp [analyze_tcp_behavior, confOf, pyGet, assocFind, rowGet]

/-- The bounded-probability brute-force detector used in the C5 witness. -/
def cBrute5 : ProbaDetector := ⟨["is_ftp_login", "ct_ftp_cmd"], fun _ => Except.ok (1, 0)⟩

/-- C5 witness: the probability-bound hypothesis holds for `cBrute5`, whose
model always returns probability 0, and its confidence is within [0,1]. -/
theorem c5_witness :
    (∀ x pr q, cBrute5.predictFn x = Except.ok (pr, q) → 0 ≤ q ∧ q ≤ 1)
  ∧ (0 ≤ confOf (detect_brute_force (some cBrute5) [])
      ∧ confOf (detect_brute_force (some cBrute5) []) ≤ 1) := by
  have h : ∀ x pr q, cBrute5.predictFn x = Except.ok (pr, q) → 0 ≤ q ∧ q ≤ 1 := by
    intro x pr q hq
    simp [cBrute5] at hq
    obtain ⟨h1, h2⟩ := hq
    subst h2
    norm_num
  exact ⟨h, c5_confidence_bounds.2.2.2.1 cBrute5 [] h⟩

/-! ## Claim C6 -/

/-- C6: calling `predict_comprehensive` twice with the identical row, the
same model name and the same loaded models yields identical results (hence
identical risk_score, risk_factors and per-detector verdicts).  The only
state a call mutates is the DBSCAN fitted attributes rewritten by
`fit_predict` (`port_scan_fitted`), and no detector reads them, so the
second call — run from the post-call state — returns the same results
value. -/
theorem c6_idempotent (st : APIState) (row : RowData) (mn : String) :
    (predict_comprehensive_stateful st row mn).1
      = (predict_comprehensive_stateful (predict_comprehensive_stateful st row mn).2 row mn).1 := by
  obtain ⟨fn, bm, dos, fz, ps, bf, rc, bw, tc, pk, tm, ss, fit⟩ := st
  show predict_comprehensive _ row mn
      = predict_comprehensive (nextState _ row mn) row mn
  cases row with
  | other => rfl
  | dict d =>
    simp only [nextState]
    split
    · rfl
    · rfl
  | list l =>
    simp only [nextState]
    split
    · rfl
    · rfl

/-! ## Claim C8 -/

/-- The literal row of the C8 scenario: `sload = 2.0`, all other listed
features 0. -/
def c8Row : FeatureRow :=
  [("sload", 2.0), ("dload", 0.0), ("spkts", 0.0), ("dpkts", 0.0),
   ("trans_depth", 0), ("response_body_len", 0), ("ct_src_dport_ltm", 0),
   ("ct_dst_sport_ltm", 0), ("is_ftp_login", 0), ("ct_ftp_cmd", 0),
   ("ct_dst_ltm", 0), ("is_sm_ips_ports", 0), ("tcprtt", 0), ("synack", 0),
   ("ackdat", 0), ("stcpb", 0), ("dtcpb", 0), ("smean", 0), ("dmean", 0),
   ("state", 0), ("dur", 0), ("sjit", 0), ("djit", 0)]

/-- C8: on the literal row with `sload = 2.0` and everything else 0, the
attack-type heuristic returns exactly `['DoS', 'High_Bandwidth']` (in that
order) and no other category. -/
theorem c8_dos_high_bandwidth :
    detect_attack_types c8Row = ["DoS", "High_Bandwidth"] := by
  simp [detect_attack_types, c8Row, rowGet, assocFind, abs_two, abs_zero]
  norm_num

/-! ## Claim C9 -/

/-- A row assigning 0 to every feature `detect_attack_types` reads. -/
def zeroRow : FeatureRow :=
  [("sload", 0), ("dload", 0), ("spkts", 0), ("dpkts", 0), ("trans_depth", 0),
   ("response_body_len", 0), ("ct_src_dport_ltm", 0), ("ct_dst_sport_ltm", 0),
   ("is_ftp_login", 0), ("ct_ftp_cmd", 0), ("ct_dst_ltm", 0),
   ("is_sm_ips_ports", 0), ("tcprtt", 0), ("synack", 0), ("ackdat", 0),
   ("stcpb", 0), ("dtcpb", 0), ("smean", 0), ("dmean", 0), ("state", 0),
   ("dur", 0), ("sjit", 0), ("djit", 0), ("ct_srv_src", 0), ("ct_srv_dst", 0),
   ("ct_dst_src_ltm", 0), ("ct_src_ltm", 0), ("sinpkt", 0), ("dinpkt", 0)]

/-- C9 counterexample: when no risk factor triggered,
`_generate_recommendations` returns two fixed messages, not a single
reassuring message. -/
theorem c9_counterexample :
    generate_recommendations [] [] =
      ["✅ No immediate security concerns detected",
       "📊 Continue monitoring for anomalies"]
  ∧ (generate_recommendations [] []).length = 2
  ∧ (generate_recommendations [] []).length ≠ 1 := by
  refine ⟨?_, ?_, ?_⟩ <;> simp [generate_recommendations]

/-- C9 (amended): on a row of all zeros the attack-type heuristic returns
the empty list; with `primary_probability = 0` and every detector verdict
false the aggregator returns risk_score 0 and risk_factors `[]`, and the
recommendations are the two fixed closing messages (the reassuring "no
immediate security concerns" line plus the "continue monitoring" line). -/
theorem c9_zero_row_assessment (st : APIState) (dd : FeatureRow)
    (h : ∀ e ∈ detectorEntries st dd, pyFlag e.2.1 e.2.2.1 = false) :
    detect_attack_types zeroRow = []
  ∧ (runDetectors st dd).2 = []
  ∧ calculate_risk_score
      (mkDA false false false false false false false false false false) 0 = 0
  ∧ generate_recommendations (runDetectors st dd).1 (runDetectors st dd).2
      = ["✅ No immediate security concerns detected",
         "📊 Continue monitoring for anomalies"] := by
  have h2 : (runDetectors st dd).2 = [] := by
    simp only [runDetectors]
    rw [List.filterMap_eq_nil_iff]
    intro e he
    simp [h e he]
  refine ⟨?_, h2, ?_, ?_⟩
  · simp [detect_attack_types, zeroRow, rowGet, assocFind, abs_zero]
    norm_num
  · rw [calc_risk_mkDA]
    norm_num [contrib]
  · rw [h2]
    simp [generate_recommendations]

/-- A loaded state with no model detectors and the default static
thresholds, used for the C9 witness. -/
def cSt9 : APIState :=
  { feature_names := []
    basic_models := []
    dos := none
    fuzzer := none
    port_scan := none
    brute_force := none
    reconnaissance := none
    bandwidth := ⟨1, 1, 1⟩
    tcp := none
    packet := ⟨-2, 2, -2, 2⟩
    timing := none
    session := none
    port_scan_fitted := none }

/-- C9 witness: on the empty row with the default static thresholds no
detector flags, so the hypothesis of `c9_zero_row_assessment` holds at
`cSt9`. -/
theorem c9_witness :
    (∀ e ∈ detectorEntries cSt9 [], pyFlag e.2.1 e.2.2.1 = false)
  ∧ (runDetectors cSt9 []).2 = []
  ∧ generate_recommendations (runDetectors cSt9 []).1 (runDetectors cSt9 []).2
      = ["✅ No immediate security concerns detected",
         "📊 Continue monitoring for anomalies"] := by
  have h : ∀ e ∈ detectorEntries cSt9 [], pyFlag e.2.1 e.2.2.1 = false := by
    simp [detectorEntries, cSt9, analyze_bandwidth, analyze_packet_sizes,
      pyFlag, pyGet, assocFind, rowGet, PyVal.truthy, decide_eq_false_iff_not]
  exact ⟨h, (c9_zero_row_assessment cSt9 [] h).2.1, (c9_zero_row_assessment cSt9 [] h).2.2.2⟩

/-! ## Claim C10 -/

/-- C10: whenever the port-scan detector reaches its model branch and the
scaling step completes without an exception, the verdict is the same for
every row — `fit_predict` refits DBSCAN from scratch on only the single
submitted (scaled) row, and the label of a one-sample dataset does not
depend on the sample's coordinates. -/
theorem c10_port_scan_row_independent (d : PortScanDetector) (r1 r2 : FeatureRow)
    (v1 v2 : List ℚ)
    (h1 : d.scaleFn (d.features.map (fun f => rowGet r1 f)) = Except.ok v1)
    (h2 : d.scaleFn (d.features.map (fun f => rowGet r2 f)) = Except.ok v2) :
    detect_port_scan (some d) r1 = detect_port_scan (some d) r2 := by
  simp [detect_port_scan, h1, h2]

/-- The trained port-scan detector configuration (`DBSCAN(min_samples=5)`,
identity scaling) used for the C10 witness. -/
def cPs10 : PortScanDetector :=
  ⟨["ct_src_dport_ltm", "ct_dst_sport_ltm"], fun v => Except.ok v, 5⟩

/-- C10 witness: two very different rows produce the same port-scan
verdict. -/
theorem c10_witness :
    cPs10.scaleFn (cPs10.features.map (fun f => rowGet [] f)) = Except.ok [0, 0]
  ∧ cPs10.scaleFn (cPs10.features.map (fun f => rowGet [("ct_src_dport_ltm", 7)] f))
      = Except.ok [7, 0]
  ∧ detect_port_scan (some cPs10) []
      = detect_port_scan (some cPs10) [("ct_src_dport_ltm", 7)] :=
  ⟨rfl, rfl, c10_port_scan_row_independent cPs10 [] [("ct_src_dport_ltm", 7)] [0, 0] [7, 0] rfl rfl⟩
